import Mathlib

/-!
Shallow embedding of `cell2cell/core/interaction_space.py` and the parts of
its collaborators that the specification pins down.

Conventions of the embedding:
* pandas DataFrame column/row labels are an arbitrary type with decidable
  equality (instantiated at `Nat` in concrete examples);
* floating-point scores are modelled as exact rationals `ℚ`;
* a pandas DataFrame used as a matrix is a record of row labels, column
  labels and a total entry function; `.loc[r, c] = v` assignment, which in
  pandas enlarges the frame when a label is absent, is `CCIMatrix.locSet`;
* a Python constructor that can `raise` is a function into `Except String _`;
* Python's dynamic object attributes that `__init__` never assigns are
  `Option`-valued fields of the state record, `none` meaning "attribute was
  never set" (reading such an attribute raises `AttributeError`).
-/

namespace Cell2Cell

variable {γ α : Type}

/-- Python's `itertools.combinations(l, 2)`: all pairs `(l[p], l[q])` with
positions `p < q`, emitted in lexicographic position order. -/
def combinations2 : List α → List (α × α)
  | [] => []
  | x :: xs => (xs.map fun y => (x, y)) ++ combinations2 xs

/-- Lines 39-40 of `interaction_space.py`:
`pairwise_interactions = list(set(itertools.combinations(cell_instances + cell_instances, 2)))`.
The Python `set` iterates in an unspecified order; we fix `List.dedup` as one
representative order and quantify over permutations where order matters. -/
def pairwise_interactions_of [DecidableEq α] (cell_instances : List α) : List (α × α) :=
  (combinations2 (cell_instances ++ cell_instances)).dedup

theorem mem_combinations2 {l : List α} {p : α × α} (h : p ∈ combinations2 l) :
    p.1 ∈ l ∧ p.2 ∈ l := by
  induction l with
  | nil => simp [combinations2] at h
  | cons x xs ih =>
    simp only [combinations2, List.mem_append, List.mem_map] at h
    rcases h with ⟨y, hy, rfl⟩ | h
    · exact ⟨List.mem_cons_self x xs, List.mem_cons_of_mem x hy⟩
    · rcases ih h with ⟨h1, h2⟩
      exact ⟨List.mem_cons_of_mem x h1, List.mem_cons_of_mem x h2⟩

theorem mem_combinations2_append {xs ys : List α} {a b : α}
    (ha : a ∈ xs) (hb : b ∈ ys) : (a, b) ∈ combinations2 (xs ++ ys) := by
  induction xs with
  | nil => simp at ha
  | cons x xs ih =>
    rcases List.mem_cons.mp ha with rfl | ha'
    · simp only [List.cons_append, combinations2, List.mem_append, List.mem_map]
      exact Or.inl ⟨b, List.mem_append_right xs hb, rfl⟩
    · simp only [List.cons_append, combinations2, List.mem_append]
      exact Or.inr (ih ha')

theorem mem_pairwise_interactions_of [DecidableEq α] (cs : List α) (a b : α) :
    (a, b) ∈ pairwise_interactions_of cs ↔ a ∈ cs ∧ b ∈ cs := by
  unfold pairwise_interactions_of
  rw [List.mem_dedup]
  constructor
  · intro h
    rcases mem_combinations2 h with ⟨h1, h2⟩
    simp only [List.mem_append] at h1 h2
    exact ⟨h1.elim id id, h2.elim id id⟩
  · rintro ⟨ha, hb⟩
    exact mem_combinations2_append ha hb

theorem nodup_pairwise_interactions_of [DecidableEq α] (cs : List α) :
    (pairwise_interactions_of cs).Nodup :=
  List.nodup_dedup _

theorem toFinset_pairwise_interactions_of [DecidableEq α] (cs : List α) :
    (pairwise_interactions_of cs).toFinset = cs.toFinset ×ˢ cs.toFinset := by
  ext p
  rcases p with ⟨a, b⟩
  rw [List.mem_toFinset, mem_pairwise_interactions_of, Finset.mem_product,
    List.mem_toFinset, List.mem_toFinset]

theorem length_pairwise_interactions_of [DecidableEq α] (cs : List α) (h : cs.Nodup) :
    (pairwise_interactions_of cs).length = cs.length * cs.length := by
  have hlen : (pairwise_interactions_of cs).toFinset.card
      = (pairwise_interactions_of cs).length :=
    List.toFinset_card_of_nodup (nodup_pairwise_interactions_of cs)
  rw [← hlen, toFinset_pairwise_interactions_of, Finset.card_product,
    List.toFinset_card_of_nodup h]

/-- A continuous expression table (pandas DataFrame, genes x cells):
`rnaseq_data` of `InteractionSpace.__init__`. -/
structure RnaseqData (γ α : Type) where
  genes : List γ
  columns : List α
  entry : γ → α → ℚ

/-- A binarized expression table (genes x cells, boolean entries):
`binary_rnaseq`. -/
structure BinaryRnaseq (γ α : Type) where
  genes : List γ
  columns : List α
  entry : γ → α → Bool

/-- Modelled from the spec (§4.2 Expression Binarizer): the missing
`integrate_data.get_binary_rnaseq` applies the elementwise comparator `≥`
between each expression value and the resolved per-gene threshold. -/
def get_binary_rnaseq (rnaseq : RnaseqData γ α) (cutoff_values : γ → ℚ) :
    BinaryRnaseq γ α :=
  { genes := rnaseq.genes
    columns := rnaseq.columns
    entry := fun g a => decide (cutoff_values g ≤ rnaseq.entry g a) }

/-- One entry of the dict built by the missing `cell.cells_from_rnaseq`
(§4.3 Cell Registry): identity is the column label (`type`), it owns its
binary expression column (`rnaseq_data`) and, after the loop at lines 48-49,
its restricted PPI edge list (`binary_ppi`). Edge weights are rationals. -/
structure CellInst (γ α : Type) where
  type : α
  rnaseq_data : γ → Bool
  binary_ppi : List (γ × γ × ℚ)

/-- Modelled from the spec (§4.4 PPI Restrictor): the missing
`integrate_data.get_binary_ppi` keeps an edge `(p, q, w)` iff both `p` and
`q` are active in the cell's binary expression vector. -/
def get_binary_ppi (ppi_data : List (γ × γ × ℚ)) (active : γ → Bool) :
    List (γ × γ × ℚ) :=
  ppi_data.filter fun e => active e.1 && active e.2.1

/-- An edge qualifies for the pair score against `cell2` when it is also
present in `cell2`'s restricted binary PPI network. -/
def edgeQualifies [DecidableEq γ] (cell2 : CellInst γ α) (e : γ × γ × ℚ) :
    Bool :=
  decide (e ∈ cell2.binary_ppi)

/-- Modelled from the spec (§4.5 Pairwise Scorer, Scenario A of §8): the
missing `compute_interaction.cci_score_from_binary` sums the weights of the
edges present in both cells' restricted binary PPI networks; it is 0 when no
edge qualifies. -/
def cci_score_from_binary [DecidableEq γ] (cell1 cell2 : CellInst γ α) : ℚ :=
  ((cell1.binary_ppi.filter (edgeQualifies cell2)).map fun e => e.2.2).sum

/-- The CCI matrix: a pandas DataFrame with row labels, column labels and
real-valued entries (entries modelled as a total function). -/
structure CCIMatrix (α : Type) where
  rows : List α
  cols : List α
  entry : α → α → ℚ

/-- Label-based assignment `M.loc[r, c] = v`: pandas enlarges the frame when
a label is absent, and overwrites the single entry `(r, c)`. -/
def CCIMatrix.locSet [DecidableEq α] (M : CCIMatrix α) (r c : α) (v : ℚ) :
    CCIMatrix α :=
  { rows := if r ∈ M.rows then M.rows else M.rows ++ [r]
    cols := if c ∈ M.cols then M.cols else M.cols ++ [c]
    entry := fun i j => if i = r ∧ j = c then v else M.entry i j }

/-- The dict returned by `generate_interaction_elements`: keys `pairs`,
`cells` (the registry, modelled as a total lookup function on labels) and
`cci_matrix`. -/
structure InteractionElements (γ α : Type) where
  pairs : List (α × α)
  cells : α → CellInst γ α
  cci_matrix : CCIMatrix α

/-- Lines 13-59 of `interaction_space.py`: `generate_interaction_elements`.
Cells are the columns of `binary_rnaseq`; pairs come from lines 39-40; each
cell's `binary_ppi` is set by the loop at lines 48-49; the CCI matrix is the
zero matrix over the cell labels, or the caller's template unvalidated and
uncopied (lines 52-57). -/
def generate_interaction_elements [DecidableEq γ] [DecidableEq α]
    (binary_rnaseq : BinaryRnaseq γ α) (ppi_data : List (γ × γ × ℚ))
    (cci_matrix_template : Option (CCIMatrix α) := none) :
    InteractionElements γ α :=
  let cell_instances := binary_rnaseq.columns
  { pairs := pairwise_interactions_of cell_instances
    cells := fun a =>
      { type := a
        rnaseq_data := fun g => binary_rnaseq.entry g a
        binary_ppi := get_binary_ppi ppi_data fun g => binary_rnaseq.entry g a }
    cci_matrix :=
      match cci_matrix_template with
      | none => { rows := cell_instances, cols := cell_instances,
                  entry := fun _ _ => 0 }
      | some t => t }

/-- The dict argument `gene_cutoffs` of `InteractionSpace.__init__`: it may
carry a `'type'` key naming a cutoff method (with its parameters) and/or a
precomputed per-gene threshold table. Only `has_type_key` is inspected by
the constructor. -/
structure GeneCutoffs (γ : Type) where
  has_type_key : Bool
  type : String
  table : Option (γ → ℚ)

/-- The state of a constructed `InteractionSpace` object: exactly the
attributes `__init__` assigns, plus the dynamically-assignable attributes
`product_filter` and `mediators` that `__init__` never sets (`none` here
means the attribute does not exist on the object). -/
structure InteractionSpaceState (γ α : Type) where
  binary_rnaseq : BinaryRnaseq γ α
  interaction_type : String
  ppi_data : List (γ × γ × ℚ)
  interaction_elements : InteractionElements γ α
  product_filter : Option (Option (List γ))
  mediators : Option (Option (List γ))

/-- Lines 76-91 of `interaction_space.py`: `InteractionSpace.__init__`.
The cutoff resolver `cutoffs.get_cutoffs` is an external collaborator passed
as a function argument. If `'type'` is not among `gene_cutoffs`' keys the
constructor raises `ValueError` before assigning any attribute; otherwise it
binarizes, selects the PPI table for the interaction type and builds the
interaction elements. -/
def InteractionSpace.init [DecidableEq γ] [DecidableEq α]
    (get_cutoffs : RnaseqData γ α → GeneCutoffs γ → (γ → ℚ))
    (rnaseq_data : RnaseqData γ α) (ppi_dict : String → List (γ × γ × ℚ))
    (interaction_type : String) (gene_cutoffs : GeneCutoffs γ)
    (cci_matrix_template : Option (CCIMatrix α) := none) :
    Except String (InteractionSpaceState γ α) :=
  if gene_cutoffs.has_type_key then
    let cutoff_values := get_cutoffs rnaseq_data gene_cutoffs
    let binary_rnaseq := get_binary_rnaseq rnaseq_data cutoff_values
    let ppi_data := ppi_dict interaction_type
    Except.ok
      { binary_rnaseq := binary_rnaseq
        interaction_type := interaction_type
        ppi_data := ppi_data
        interaction_elements :=
          generate_interaction_elements binary_rnaseq ppi_data
            cci_matrix_template
        product_filter := none
        mediators := none }
  else
    Except.error
      "If dataframe is not included in gene_cutoffs, please provide the type of method to obtain them."

/-- Lines 94-131: `InteractionSpace.pairwise_interaction` returns
`compute_interaction.cci_score_from_binary(cell1, cell2)` (the `verbose`
print has no effect on the result). -/
def InteractionSpace.pairwise_interaction [DecidableEq γ]
    (cell1 cell2 : CellInst γ α) : ℚ :=
  cci_score_from_binary cell1 cell2

/-- One iteration of the loop at lines 149-154: look up the two cells of the
pair, score them, and write the score into both `(pair[0], pair[1])` and
`(pair[1], pair[0])`. -/
def scoreStep [DecidableEq γ] [DecidableEq α] (cells : α → CellInst γ α)
    (M : CCIMatrix α) (pair : α × α) : CCIMatrix α :=
  let cell1 := cells pair.1
  let cell2 := cells pair.2
  let cci_score := InteractionSpace.pairwise_interaction cell1 cell2
  (M.locSet pair.1 pair.2 cci_score).locSet pair.2 pair.1 cci_score

/-- Lines 133-154: `InteractionSpace.compute_pairwise_interactions`, as a
function of the `interaction_elements` attribute it reads and writes: fold
the double-write step over the pair list, starting from the stored CCI
matrix. -/
def InteractionSpace.compute_pairwise_interactions [DecidableEq γ]
    [DecidableEq α] (ie : InteractionElements γ α) : CCIMatrix α :=
  ie.pairs.foldl (scoreStep ie.cells) ie.cci_matrix

/-- Lines 156-163: `InteractionSpace.get_genes_for_filter`. It reads
`self.product_filter` and `self.mediators`; reading an attribute that was
never assigned raises `AttributeError`. -/
def InteractionSpace.get_genes_for_filter [DecidableEq γ]
    (s : InteractionSpaceState γ α) : Except String (List γ) :=
  match s.product_filter with
  | none =>
    Except.error "AttributeError: 'InteractionSpace' object has no attribute 'product_filter'"
  | some pf =>
    let genes := pf.getD []
    match s.mediators with
    | none =>
      Except.error "AttributeError: 'InteractionSpace' object has no attribute 'mediators'"
    | some md => Except.ok (genes ++ md.getD []).dedup

/-! Entry-level view of the scoring loop: the entry function of the matrix
after a step depends only on the entry function before it, so the fold can
be analysed on entry functions alone. -/

/-- The score the loop body computes for a pair (line 152). -/
def pairScore [DecidableEq γ] (cells : α → CellInst γ α) (p : α × α) : ℚ :=
  InteractionSpace.pairwise_interaction (cells p.1) (cells p.2)

/-- The effect of one loop iteration on the entry function alone. -/
def entryStep [DecidableEq γ] [DecidableEq α] (cells : α → CellInst γ α)
    (m : α → α → ℚ) (p : α × α) : α → α → ℚ :=
  fun i j =>
    if i = p.2 ∧ j = p.1 then pairScore cells p
    else if i = p.1 ∧ j = p.2 then pairScore cells p
    else m i j

theorem scoreStep_entry [DecidableEq γ] [DecidableEq α]
    (cells : α → CellInst γ α) (M : CCIMatrix α) (p : α × α) :
    (scoreStep cells M p).entry = entryStep cells M.entry p := rfl

theorem foldl_scoreStep_entry [DecidableEq γ] [DecidableEq α]
    (cells : α → CellInst γ α) (l : List (α × α)) (M : CCIMatrix α) :
    (l.foldl (scoreStep cells) M).entry = l.foldl (entryStep cells) M.entry := by
  induction l generalizing M with
  | nil => rfl
  | cons p l ih => rw [List.foldl_cons, List.foldl_cons, ih, scoreStep_entry]

theorem entryStep_eq [DecidableEq γ] [DecidableEq α]
    (cells : α → CellInst γ α) (m : α → α → ℚ) (p : α × α) (i j : α) :
    entryStep cells m p i j =
      if (i = p.1 ∧ j = p.2) ∨ (i = p.2 ∧ j = p.1) then pairScore cells p
      else m i j := by
  by_cases hA : i = p.1 ∧ j = p.2 <;> by_cases hB : i = p.2 ∧ j = p.1 <;>
    simp [entryStep, hA, hB]

/-- Each loop iteration writes both orientations with the same value, so it
preserves symmetry of the entry function at any fixed position pair. -/
theorem entryStep_sync [DecidableEq γ] [DecidableEq α]
    (cells : α → CellInst γ α) (m : α → α → ℚ) (p : α × α) (i j : α)
    (h : m i j = m j i) :
    entryStep cells m p i j = entryStep cells m p j i := by
  rw [entryStep_eq, entryStep_eq]
  by_cases hc : (i = p.1 ∧ j = p.2) ∨ (i = p.2 ∧ j = p.1)
  · have hc2 : (j = p.1 ∧ i = p.2) ∨ (j = p.2 ∧ i = p.1) := by tauto
    rw [if_pos hc, if_pos hc2]
  · have hc2 : ¬ ((j = p.1 ∧ i = p.2) ∨ (j = p.2 ∧ i = p.1)) := by tauto
    rw [if_neg hc, if_neg hc2]
    exact h

/-- The iteration on the pair `(i, j)` itself makes the two orientations
equal. -/
theorem entryStep_sync_self [DecidableEq γ] [DecidableEq α]
    (cells : α → CellInst γ α) (m : α → α → ℚ) (i j : α) :
    entryStep cells m (i, j) i j = entryStep cells m (i, j) j i := by
  rw [entryStep_eq, entryStep_eq, if_pos (Or.inl ⟨rfl, rfl⟩),
    if_pos (Or.inr ⟨rfl, rfl⟩)]

theorem foldl_entryStep_sync [DecidableEq γ] [DecidableEq α]
    (cells : α → CellInst γ α) (i j : α) (l : List (α × α)) (m : α → α → ℚ)
    (h : (i, j) ∈ l ∨ m i j = m j i) :
    (l.foldl (entryStep cells) m) i j = (l.foldl (entryStep cells) m) j i := by
  induction l generalizing m with
  | nil => exact h.elim (fun hm => absurd hm (List.not_mem_nil _)) id
  | cons p l ih =>
    rw [List.foldl_cons]
    rcases h with hmem | hsync
    · rcases List.mem_cons.mp hmem with rfl | htail
      · exact ih _ (Or.inr (entryStep_sync_self cells m i j))
      · exact ih _ (Or.inl htail)
    · exact ih _ (Or.inr (entryStep_sync cells m p i j hsync))

/-- Iterations on pairs other than `(i, i)` leave the diagonal entry `(i, i)`
unchanged. -/
theorem entryStep_diag_frame [DecidableEq γ] [DecidableEq α]
    (cells : α → CellInst γ α) (m : α → α → ℚ) (p : α × α) (i : α)
    (h : p ≠ (i, i)) : entryStep cells m p i i = m i i := by
  rw [entryStep_eq]
  rcases p with ⟨a, b⟩
  by_cases hc : (i = a ∧ i = b) ∨ (i = b ∧ i = a)
  · exfalso
    rcases hc with ⟨rfl, rfl⟩ | ⟨rfl, rfl⟩ <;> exact h rfl
  · rw [if_neg hc]

theorem foldl_entryStep_diag_frame [DecidableEq γ] [DecidableEq α]
    (cells : α → CellInst γ α) (i : α) (l : List (α × α)) (m : α → α → ℚ)
    (h : (i, i) ∉ l) :
    (l.foldl (entryStep cells) m) i i = m i i := by
  induction l generalizing m with
  | nil => rfl
  | cons p l ih =>
    rw [List.foldl_cons, ih _ fun hl => h (List.mem_cons_of_mem p hl),
      entryStep_diag_frame cells m p i fun hp => h (hp ▸ List.mem_cons_self p l)]

/-- After the whole pass, the diagonal entry at a cell that occurs exactly
once as a self-pair is the self-pair score. -/
theorem foldl_entryStep_diag [DecidableEq γ] [DecidableEq α]
    (cells : α → CellInst γ α) (i : α) (l : List (α × α)) (m : α → α → ℚ)
    (hmem : (i, i) ∈ l) (hnd : l.Nodup) :
    (l.foldl (entryStep cells) m) i i = pairScore cells (i, i) := by
  induction l generalizing m with
  | nil => exact absurd hmem (List.not_mem_nil _)
  | cons p l ih =>
    rw [List.foldl_cons]
    rcases List.mem_cons.mp hmem with rfl | htail
    · have hnotin : ((i, i) : α × α) ∉ l := (List.nodup_cons.mp hnd).1
      rw [foldl_entryStep_diag_frame cells i l _ hnotin, entryStep_eq,
        if_pos (Or.inl ⟨rfl, rfl⟩)]
    · exact ih _ htail (List.nodup_cons.mp hnd).2

/-! Symmetry of the pairwise score and commutation of the loop body. -/

theorem edgeQualifies_of_filter [DecidableEq γ] (ppi : List (γ × γ × ℚ))
    (Q : γ × γ × ℚ → Bool) (c2 : CellInst γ α)
    (h2 : c2.binary_ppi = ppi.filter Q) (e : γ × γ × ℚ) (he : e ∈ ppi) :
    edgeQualifies c2 e = Q e := by
  unfold edgeQualifies
  rw [h2]
  by_cases hQ : Q e = true
  · simp [List.mem_filter, he, hQ]
  · simp [List.mem_filter, hQ]

/-- The qualifying edges of a pair are the edges of the shared reference
active in both cells, whenever both cells' binary PPI networks restrict one
shared PPI reference — which is how `generate_interaction_elements` builds
every cell. -/
theorem cci_score_from_binary_eval [DecidableEq γ] (ppi : List (γ × γ × ℚ))
    (P Q : γ × γ × ℚ → Bool) (c1 c2 : CellInst γ α)
    (h1 : c1.binary_ppi = ppi.filter P) (h2 : c2.binary_ppi = ppi.filter Q) :
    cci_score_from_binary c1 c2
      = ((ppi.filter fun e => Q e && P e).map fun e => e.2.2).sum := by
  unfold cci_score_from_binary
  rw [h1]
  have hcongr : ∀ e ∈ ppi.filter P, edgeQualifies c2 e = Q e := fun e he =>
    edgeQualifies_of_filter ppi Q c2 h2 e (List.mem_filter.mp he).1
  rw [List.filter_congr hcongr, List.filter_filter]

/-- The score is symmetric in its two cells whenever both cells' binary PPI
networks are restrictions of one shared PPI reference. -/
theorem cci_score_from_binary_symm [DecidableEq γ] (ppi : List (γ × γ × ℚ))
    (P Q : γ × γ × ℚ → Bool) (c1 c2 : CellInst γ α)
    (h1 : c1.binary_ppi = ppi.filter P) (h2 : c2.binary_ppi = ppi.filter Q) :
    cci_score_from_binary c1 c2 = cci_score_from_binary c2 c1 := by
  rw [cci_score_from_binary_eval ppi P Q c1 c2 h1 h2,
    cci_score_from_binary_eval ppi Q P c2 c1 h2 h1,
    List.filter_congr fun e _ => Bool.and_comm (Q e) (P e)]

theorem pairScore_generate_symm [DecidableEq γ] [DecidableEq α]
    (br : BinaryRnaseq γ α) (ppi : List (γ × γ × ℚ))
    (tmpl : Option (CCIMatrix α)) (a b : α) :
    pairScore (generate_interaction_elements br ppi tmpl).cells (a, b)
      = pairScore (generate_interaction_elements br ppi tmpl).cells (b, a) :=
  cci_score_from_binary_symm ppi _ _ _ _ rfl rfl

/-- When the pairwise score is symmetric, two loop iterations commute: they
write either disjoint matrix positions or the same value to the same
positions. -/
theorem entryStep_comm [DecidableEq γ] [DecidableEq α]
    (cells : α → CellInst γ α)
    (hsymm : ∀ a b : α, pairScore cells (a, b) = pairScore cells (b, a))
    (m : α → α → ℚ) (p q : α × α) :
    entryStep cells (entryStep cells m p) q
      = entryStep cells (entryStep cells m q) p := by
  funext i j
  rw [entryStep_eq, entryStep_eq, entryStep_eq, entryStep_eq]
  by_cases hp : (i = p.1 ∧ j = p.2) ∨ (i = p.2 ∧ j = p.1) <;>
    by_cases hq : (i = q.1 ∧ j = q.2) ∨ (i = q.2 ∧ j = q.1) <;>
    simp only [hp, hq, if_pos, if_neg, if_true, if_false, not_false_iff]
  rcases p with ⟨p1, p2⟩
  rcases q with ⟨q1, q2⟩
  simp only at hp hq
  rcases hp with ⟨hp1, hp2⟩ | ⟨hp1, hp2⟩ <;>
    rcases hq with ⟨hq1, hq2⟩ | ⟨hq1, hq2⟩ <;>
    subst hp1 <;> subst hp2 <;> subst hq1 <;> subst hq2
  · rfl
  · exact hsymm j i
  · exact hsymm i j
  · rfl

/-- A fold of a commuting step function is invariant under permutations of
the list. -/
theorem foldl_perm_of_comm {β δ : Type} (f : β → δ → β)
    (hcomm : ∀ b p q, f (f b p) q = f (f b q) p)
    {l1 l2 : List δ} (h : l1.Perm l2) :
    ∀ b, l1.foldl f b = l2.foldl f b := by
  induction h with
  | nil => intro b; rfl
  | cons x _ ih =>
    intro b
    rw [List.foldl_cons, List.foldl_cons]
    exact ih _
  | swap x y l =>
    intro b
    rw [List.foldl_cons, List.foldl_cons, List.foldl_cons, List.foldl_cons,
      hcomm]
  | trans _ _ ih1 ih2 =>
    intro b
    rw [ih1 b, ih2 b]

/-! Concrete example inputs used by witnesses and counterexamples.
Gene labels 10, 11; cell labels 0, 1. -/

/-- A binary expression table with both genes active in both cells. -/
def exBr2 : BinaryRnaseq ℕ ℕ :=
  { genes := [10, 11], columns := [0, 1], entry := fun _ _ => true }

/-- A binary expression table where cell 1 expresses nothing. -/
def exBr3 : BinaryRnaseq ℕ ℕ :=
  { genes := [10, 11], columns := [0, 1], entry := fun _ a => a == 0 }

/-- A one-edge PPI reference with weight 1. -/
def exPpi : List (ℕ × ℕ × ℚ) := [(10, 11, 1)]

/-- A raw expression table with constant value 5. -/
def exRnaseq : RnaseqData ℕ ℕ :=
  { genes := [10, 11], columns := [0, 1], entry := fun _ _ => 5 }

/-- A cutoff resolver collaborator returning threshold 1 for every gene. -/
def exGetCutoffs : RnaseqData ℕ ℕ → GeneCutoffs ℕ → (ℕ → ℚ) :=
  fun _ _ => fun _ => 1

/-- A cutoff spec naming a method. -/
def exGeneCutoffs : GeneCutoffs ℕ :=
  { has_type_key := true, type := "local_percentiles", table := none }

/-- A CCI matrix template whose labels 7, 8 differ from the cell set. -/
def exBadTemplate : CCIMatrix ℕ :=
  { rows := [7, 8], cols := [7, 8], entry := fun _ _ => 3 }

/-! The claims. -/

/-- C1: the claim that the pair list for C distinct cells has exactly
C·(C−1)/2 entries with no self-pair is false at the 2-cell table `exBr2`:
the list has 4 entries, contains the self-pair (0, 0), and contains the
unordered pair of 0 and 1 in both orders. -/
theorem C1_counterexample :
    ¬ ((generate_interaction_elements exBr2 exPpi none).pairs.length
          = 2 * (2 - 1) / 2
        ∧ ((0, 0) : ℕ × ℕ) ∉ (generate_interaction_elements exBr2 exPpi
            none).pairs) := by
  decide

/-- C1 (amended): for a binary expression table with C distinct cell column
labels, the pair list contains every ordered pair of cell labels, self-pairs
included, each exactly once: C·C pairs in total. -/
theorem C1_pairs_characterization [DecidableEq γ] [DecidableEq α]
    (br : BinaryRnaseq γ α) (ppi : List (γ × γ × ℚ))
    (tmpl : Option (CCIMatrix α)) (h : br.columns.Nodup) :
    (generate_interaction_elements br ppi tmpl).pairs.length
        = br.columns.length * br.columns.length
      ∧ (generate_interaction_elements br ppi tmpl).pairs.Nodup
      ∧ ∀ a b : α, (a, b) ∈ (generate_interaction_elements br ppi tmpl).pairs
          ↔ a ∈ br.columns ∧ b ∈ br.columns :=
  ⟨length_pairwise_interactions_of br.columns h,
   nodup_pairwise_interactions_of br.columns,
   fun a b => mem_pairwise_interactions_of br.columns a b⟩

theorem C1_pairs_characterization_witness :
    exBr2.columns.Nodup
      ∧ ((generate_interaction_elements exBr2 exPpi none).pairs.length
            = exBr2.columns.length * exBr2.columns.length
          ∧ (generate_interaction_elements exBr2 exPpi none).pairs.Nodup
          ∧ ∀ a b : ℕ,
              (a, b) ∈ (generate_interaction_elements exBr2 exPpi none).pairs
                ↔ a ∈ exBr2.columns ∧ b ∈ exBr2.columns) :=
  ⟨by decide, C1_pairs_characterization exBr2 exPpi none (by decide)⟩

/-- C2: after `compute_pairwise_interactions` the CCI matrix is symmetric at
every pair of cell labels; each iteration of the loop writes the score into
both (i, j) and (j, i). -/
theorem C2_cci_matrix_symmetric [DecidableEq γ] [DecidableEq α]
    (br : BinaryRnaseq γ α) (ppi : List (γ × γ × ℚ))
    (tmpl : Option (CCIMatrix α)) (i j : α)
    (hi : i ∈ br.columns) (hj : j ∈ br.columns) :
    (InteractionSpace.compute_pairwise_interactions
        (generate_interaction_elements br ppi tmpl)).entry i j
      = (InteractionSpace.compute_pairwise_interactions
          (generate_interaction_elements br ppi tmpl)).entry j i := by
  unfold InteractionSpace.compute_pairwise_interactions
  rw [foldl_scoreStep_entry]
  exact foldl_entryStep_sync _ i j _ _
    (Or.inl ((mem_pairwise_interactions_of br.columns i j).mpr ⟨hi, hj⟩))

theorem C2_cci_matrix_symmetric_witness :
    (0 ∈ exBr2.columns ∧ 1 ∈ exBr2.columns)
      ∧ (InteractionSpace.compute_pairwise_interactions
            (generate_interaction_elements exBr2 exPpi none)).entry 0 1
        = (InteractionSpace.compute_pairwise_interactions
            (generate_interaction_elements exBr2 exPpi none)).entry 1 0 :=
  ⟨by decide,
   C2_cci_matrix_symmetric exBr2 exPpi none 0 1 (by decide) (by decide)⟩

/-- C3: the claim that the scoring pass never invokes the scorer on a
self-pair and leaves the diagonal at its initial value is false at `exBr2`:
the pair (0, 0) is enumerated, and the diagonal entry (0, 0) ends at the
self-pair score 1 instead of its initial value 0. -/
theorem C3_counterexample :
    ((0, 0) : ℕ × ℕ) ∈ (generate_interaction_elements exBr2 exPpi none).pairs
      ∧ ¬ (InteractionSpace.compute_pairwise_interactions
            (generate_interaction_elements exBr2 exPpi none)).entry 0 0
          = (generate_interaction_elements exBr2 exPpi
              none).cci_matrix.entry 0 0 := by
  constructor
  · decide
  · intro hEq
    have hdiag : (InteractionSpace.compute_pairwise_interactions
          (generate_interaction_elements exBr2 exPpi none)).entry 0 0
        = pairScore (generate_interaction_elements exBr2 exPpi none).cells
            (0, 0) := by
      unfold InteractionSpace.compute_pairwise_interactions
      rw [foldl_scoreStep_entry]
      exact foldl_entryStep_diag _ 0 _ _ (by decide)
        (nodup_pairwise_interactions_of _)
    have hscore : pairScore
          (generate_interaction_elements exBr2 exPpi none).cells (0, 0)
        = 1 := by
      simp [pairScore, InteractionSpace.pairwise_interaction,
        cci_score_from_binary, generate_interaction_elements, get_binary_ppi,
        edgeQualifies, exBr2, exPpi]
    have hinit : (generate_interaction_elements exBr2 exPpi
          none).cci_matrix.entry 0 0 = 0 := rfl
    rw [hdiag, hscore, hinit] at hEq
    exact one_ne_zero hEq

/-- C3 (amended): the scoring pass does invoke the pairwise scorer with
cell1 == cell2 — one self-pair per cell label is enumerated — and the
diagonal entry at each cell label ends as that cell's self-pair score,
overwriting the initialized value. -/
theorem C3_self_pair_diagonal [DecidableEq γ] [DecidableEq α]
    (br : BinaryRnaseq γ α) (ppi : List (γ × γ × ℚ))
    (tmpl : Option (CCIMatrix α)) (i : α) (hi : i ∈ br.columns) :
    (i, i) ∈ (generate_interaction_elements br ppi tmpl).pairs
      ∧ (InteractionSpace.compute_pairwise_interactions
            (generate_interaction_elements br ppi tmpl)).entry i i
        = InteractionSpace.pairwise_interaction
            ((generate_interaction_elements br ppi tmpl).cells i)
            ((generate_interaction_elements br ppi tmpl).cells i) := by
  constructor
  · exact (mem_pairwise_interactions_of br.columns i i).mpr ⟨hi, hi⟩
  · unfold InteractionSpace.compute_pairwise_interactions
    rw [foldl_scoreStep_entry]
    exact foldl_entryStep_diag _ i _ _
      ((mem_pairwise_interactions_of br.columns i i).mpr ⟨hi, hi⟩)
      (nodup_pairwise_interactions_of br.columns)

theorem C3_self_pair_diagonal_witness :
    0 ∈ exBr2.columns
      ∧ (((0, 0) : ℕ × ℕ) ∈ (generate_interaction_elements exBr2 exPpi
            none).pairs
          ∧ (InteractionSpace.compute_pairwise_interactions
                (generate_interaction_elements exBr2 exPpi none)).entry 0 0
            = InteractionSpace.pairwise_interaction
                ((generate_interaction_elements exBr2 exPpi none).cells 0)
                ((generate_interaction_elements exBr2 exPpi none).cells 0)) :=
  ⟨by decide, C3_self_pair_diagonal exBr2 exPpi none 0 (by decide)⟩

/-- C4: the constructor rejects a cutoff spec that supplies a precomputed
per-gene threshold table but names no method: `__init__` tests only for the
`'type'` key and raises `ValueError` even though its own error message
promises that a supplied table would be accepted. -/
theorem C4_precomputed_table_rejected :
    InteractionSpace.init (fun _ gc => gc.table.getD fun _ => 0) exRnaseq
        (fun _ => exPpi) "binary"
        { has_type_key := false, type := "", table := some fun _ => 1 }
        none
      = Except.error
          "If dataframe is not included in gene_cutoffs, please provide the type of method to obtain them." :=
  rfl

/-- C5: a cutoff spec with no `'type'` key makes the constructor raise
immediately; the error carries no constructed state, so no binarized
expression, cell registry or CCI matrix is attached. -/
theorem C5_no_method_raises [DecidableEq γ] [DecidableEq α]
    (get_cutoffs : RnaseqData γ α → GeneCutoffs γ → (γ → ℚ))
    (rnaseq_data : RnaseqData γ α) (ppi_dict : String → List (γ × γ × ℚ))
    (interaction_type : String) (gene_cutoffs : GeneCutoffs γ)
    (tmpl : Option (CCIMatrix α)) (h : gene_cutoffs.has_type_key = false) :
    InteractionSpace.init get_cutoffs rnaseq_data ppi_dict interaction_type
        gene_cutoffs tmpl
      = Except.error
          "If dataframe is not included in gene_cutoffs, please provide the type of method to obtain them." := by
  unfold InteractionSpace.init
  rw [h]
  rfl

theorem C5_no_method_raises_witness :
    ({ has_type_key := false, type := "", table := none } :
        GeneCutoffs ℕ).has_type_key = false
      ∧ InteractionSpace.init exGetCutoffs exRnaseq (fun _ => exPpi) "binary"
          { has_type_key := false, type := "", table := none } none
        = Except.error
            "If dataframe is not included in gene_cutoffs, please provide the type of method to obtain them." :=
  ⟨rfl,
   C5_no_method_raises exGetCutoffs exRnaseq (fun _ => exPpi) "binary"
     { has_type_key := false, type := "", table := none } none rfl⟩

/-- C6: the claim that a template with mismatched labels makes construction
raise is false: with the template `exBadTemplate` (labels 7, 8 against cells
0, 1) construction succeeds. -/
theorem C6_counterexample :
    (InteractionSpace.init exGetCutoffs exRnaseq (fun _ => exPpi) "binary"
        exGeneCutoffs (some exBadTemplate)).isOk = true :=
  rfl

/-- C6 (amended): construction performs no validation of the template's
labels: whenever the cutoff spec has a `'type'` key it succeeds for every
caller-supplied template, storing the template as the CCI matrix
unchanged. -/
theorem C6_template_unvalidated [DecidableEq γ] [DecidableEq α]
    (get_cutoffs : RnaseqData γ α → GeneCutoffs γ → (γ → ℚ))
    (rnaseq_data : RnaseqData γ α) (ppi_dict : String → List (γ × γ × ℚ))
    (interaction_type : String) (gene_cutoffs : GeneCutoffs γ)
    (t : CCIMatrix α) (h : gene_cutoffs.has_type_key = true) :
    (InteractionSpace.init get_cutoffs rnaseq_data ppi_dict interaction_type
          gene_cutoffs (some t)).map
        (fun s => s.interaction_elements.cci_matrix)
      = Except.ok t := by
  unfold InteractionSpace.init
  rw [h]
  rfl

theorem C6_template_unvalidated_witness :
    exGeneCutoffs.has_type_key = true
      ∧ (InteractionSpace.init exGetCutoffs exRnaseq (fun _ => exPpi)
            "binary" exGeneCutoffs (some exBadTemplate)).map
          (fun s => s.interaction_elements.cci_matrix)
        = Except.ok exBadTemplate :=
  ⟨rfl,
   C6_template_unvalidated exGetCutoffs exRnaseq (fun _ => exPpi) "binary"
     exGeneCutoffs exBadTemplate rfl⟩

/-- C7: the final CCI matrix does not depend on the order in which the
enumerated pairs are iterated: folding the scoring step over any permutation
of the pair list yields the same entries as `compute_pairwise_interactions`;
rebuilding from the same inputs is deterministic by purity. -/
theorem C7_order_independence [DecidableEq γ] [DecidableEq α]
    (br : BinaryRnaseq γ α) (ppi : List (γ × γ × ℚ))
    (tmpl : Option (CCIMatrix α)) (l : List (α × α))
    (hl : l.Perm (generate_interaction_elements br ppi tmpl).pairs)
    (i j : α) :
    (l.foldl (scoreStep (generate_interaction_elements br ppi tmpl).cells)
        (generate_interaction_elements br ppi tmpl).cci_matrix).entry i j
      = (InteractionSpace.compute_pairwise_interactions
          (generate_interaction_elements br ppi tmpl)).entry i j := by
  unfold InteractionSpace.compute_pairwise_interactions
  rw [foldl_scoreStep_entry, foldl_scoreStep_entry]
  have hcomm := fun m p q =>
    entryStep_comm (generate_interaction_elements br ppi tmpl).cells
      (fun a b => pairScore_generate_symm br ppi tmpl a b) m p q
  exact congrFun (congrFun (foldl_perm_of_comm _ hcomm hl _) i) j

theorem C7_order_independence_witness :
    ([((1 : ℕ), (1 : ℕ)), (1, 0), (0, 0), (0, 1)].Perm
        (generate_interaction_elements exBr2 exPpi none).pairs)
      ∧ ([((1 : ℕ), (1 : ℕ)), (1, 0), (0, 0), (0, 1)].foldl
            (scoreStep (generate_interaction_elements exBr2 exPpi none).cells)
            (generate_interaction_elements exBr2 exPpi
              none).cci_matrix).entry 0 1
        = (InteractionSpace.compute_pairwise_interactions
            (generate_interaction_elements exBr2 exPpi none)).entry 0 1 :=
  ⟨by decide,
   C7_order_independence exBr2 exPpi none
     [(1, 1), (1, 0), (0, 0), (0, 1)] (by decide) 0 1⟩

/-- C8: the pairwise score is symmetric in its two cells, and it is 0 when
no edge of one cell's restricted PPI network also lies in the other's. -/
theorem C8_score_symmetric_zero [DecidableEq γ] [DecidableEq α]
    (br : BinaryRnaseq γ α) (ppi : List (γ × γ × ℚ))
    (tmpl : Option (CCIMatrix α)) (a b : α) :
    InteractionSpace.pairwise_interaction
        ((generate_interaction_elements br ppi tmpl).cells a)
        ((generate_interaction_elements br ppi tmpl).cells b)
      = InteractionSpace.pairwise_interaction
          ((generate_interaction_elements br ppi tmpl).cells b)
          ((generate_interaction_elements br ppi tmpl).cells a)
    ∧ ((∀ e ∈ ((generate_interaction_elements br ppi tmpl).cells
            a).binary_ppi,
          e ∉ ((generate_interaction_elements br ppi tmpl).cells
            b).binary_ppi) →
        InteractionSpace.pairwise_interaction
            ((generate_interaction_elements br ppi tmpl).cells a)
            ((generate_interaction_elements br ppi tmpl).cells b)
          = 0) := by
  constructor
  · exact pairScore_generate_symm br ppi tmpl a b
  · intro h
    unfold InteractionSpace.pairwise_interaction cci_score_from_binary
    have hnil : (((generate_interaction_elements br ppi tmpl).cells
          a).binary_ppi.filter
        (edgeQualifies ((generate_interaction_elements br ppi tmpl).cells
          b))) = [] := by
      rw [List.filter_eq_nil_iff]
      intro e he
      unfold edgeQualifies
      simpa using h e he
    rw [hnil]
    rfl

theorem C8_score_symmetric_zero_witness :
    (∀ e ∈ ((generate_interaction_elements exBr3 exPpi none).cells
        0).binary_ppi,
      e ∉ ((generate_interaction_elements exBr3 exPpi none).cells
        1).binary_ppi)
      ∧ InteractionSpace.pairwise_interaction
            ((generate_interaction_elements exBr3 exPpi none).cells 0)
            ((generate_interaction_elements exBr3 exPpi none).cells 1)
          = InteractionSpace.pairwise_interaction
              ((generate_interaction_elements exBr3 exPpi none).cells 1)
              ((generate_interaction_elements exBr3 exPpi none).cells 0)
      ∧ InteractionSpace.pairwise_interaction
            ((generate_interaction_elements exBr3 exPpi none).cells 0)
            ((generate_interaction_elements exBr3 exPpi none).cells 1)
          = 0 :=
  ⟨by decide,
   (C8_score_symmetric_zero exBr3 exPpi none 0 1).1,
   (C8_score_symmetric_zero exBr3 exPpi none 0 1).2 (by decide)⟩

/-- C9: the object stored as `cci_matrix` is the caller's template itself
(line 57 is a plain assignment with no copy), so the scoring pass folds its
writes directly into the caller's template. -/
theorem C9_template_identity [DecidableEq γ] [DecidableEq α]
    (br : BinaryRnaseq γ α) (ppi : List (γ × γ × ℚ)) (t : CCIMatrix α) :
    (generate_interaction_elements br ppi (some t)).cci_matrix = t
      ∧ InteractionSpace.compute_pairwise_interactions
          (generate_interaction_elements br ppi (some t))
        = (generate_interaction_elements br ppi (some t)).pairs.foldl
            (scoreStep (generate_interaction_elements br ppi (some t)).cells)
            t :=
  ⟨rfl, rfl⟩

/-- C10: on every state `__init__` builds, `get_genes_for_filter` raises
`AttributeError`, because `__init__` never assigns the `product_filter`
attribute the method reads first. -/
theorem C10_get_genes_for_filter_raises [DecidableEq γ] [DecidableEq α]
    (get_cutoffs : RnaseqData γ α → GeneCutoffs γ → (γ → ℚ))
    (rnaseq_data : RnaseqData γ α) (ppi_dict : String → List (γ × γ × ℚ))
    (interaction_type : String) (gene_cutoffs : GeneCutoffs γ)
    (tmpl : Option (CCIMatrix α)) (s : InteractionSpaceState γ α)
    (h : InteractionSpace.init get_cutoffs rnaseq_data ppi_dict
        interaction_type gene_cutoffs tmpl = Except.ok s) :
    InteractionSpace.get_genes_for_filter s
      = Except.error
          "AttributeError: 'InteractionSpace' object has no attribute 'product_filter'" := by
  unfold InteractionSpace.init at h
  by_cases hk : gene_cutoffs.has_type_key = true
  · rw [if_pos hk] at h
    injection h with h
    subst h
    rfl
  · rw [if_neg hk] at h
    exact Except.noConfusion h

theorem C10_get_genes_for_filter_raises_witness :
    (InteractionSpace.init exGetCutoffs exRnaseq (fun _ => exPpi) "binary"
        exGeneCutoffs none
      = Except.ok
          { binary_rnaseq := get_binary_rnaseq exRnaseq fun _ => 1
            interaction_type := "binary"
            ppi_data := exPpi
            interaction_elements :=
              generate_interaction_elements
                (get_binary_rnaseq exRnaseq fun _ => 1) exPpi none
            product_filter := none
            mediators := none })
      ∧ InteractionSpace.get_genes_for_filter
          { binary_rnaseq := get_binary_rnaseq exRnaseq fun _ => 1
            interaction_type := "binary"
            ppi_data := exPpi
            interaction_elements :=
              generate_interaction_elements
                (get_binary_rnaseq exRnaseq fun _ => 1) exPpi none
            product_filter := none
            mediators := none }
        = Except.error
            "AttributeError: 'InteractionSpace' object has no attribute 'product_filter'" :=
  ⟨rfl,
   C10_get_genes_for_filter_raises exGetCutoffs exRnaseq (fun _ => exPpi)
     "binary" exGeneCutoffs none _ rfl⟩

end Cell2Cell
